import Mathlib

/-!
Verification of the night-cycle scheduling and session-continuity state
machine of `infrastructure/solitude.py` (the Solitude daemon).

Shallow embedding conventions:
* calendar dates are modelled as `Int` day numbers (the Python code stores
  ISO date strings, whose equality and ordering agree with day numbers);
* UUID session tokens are opaque `Nat` values supplied by the caller at
  each wakeup (the Python code calls `uuid.uuid4()`);
* the wall clock `datetime.now()` is an explicit `Now` argument;
* the two prompt template files are an explicit `FS` argument: `none`
  models a `FileNotFoundError` on `read_text()`, `some t` models a file
  with content `t`;
* the external agent invocation (`subprocess.run`) is an explicit
  `Outcome` argument covering normal completion (with return code,
  stdout, stderr), `subprocess.TimeoutExpired`, and any other spawn
  exception;
* the per-night output log file is modelled as a list of structured
  `LogEntry` blocks carrying the file the block went to and the exact
  header data written; appending to the file is list append.
Path, logging and APScheduler fields of the Python classes are external
I/O collaborators out of scope of the claims and are not modelled.
-/

/-- The schedule-relevant fields of the Python `Config` dataclass
(`night_start`, `night_end`, `interval_minutes`); the remaining fields
are file-system paths not needed by any claim. -/
structure Config where
  night_start : Nat
  night_end : Nat
  interval_minutes : Nat
deriving DecidableEq

/-- Python `range(start, stop)` as a list. -/
def pyRange (start stop : Nat) : List Nat :=
  List.range' start (stop - start)

/-- Python `range(start, stop, step)` as a list, for `step > 0`.
Python raises `ValueError` on `step = 0`; that case is unreachable under
the configuration invariant `interval_minutes ∈ (0, 60]` and is mapped
to the empty list. -/
def pyRangeStep (start stop step : Nat) : List Nat :=
  if step = 0 then []
  else List.range' start ((stop - start + step - 1) / step) step

/-- The hour list built by `Config.get_night_hours`:
`end_hour = night_end - 1 if night_end > 0 else 23`; if
`night_start > end_hour` the range wraps past midnight
(`range(night_start, 24) + range(0, end_hour + 1)`), otherwise it is
`range(night_start, end_hour + 1)`. -/
def nightHoursFn (night_start night_end : Nat) : List Nat :=
  let end_hour := if night_end > 0 then night_end - 1 else 23
  if night_start > end_hour then
    pyRange night_start 24 ++ pyRange 0 (end_hour + 1)
  else
    pyRange night_start (end_hour + 1)

/-- The hour list of `Config.get_night_hours` before joining into the
cron string. -/
def Config.nightHoursList (c : Config) : List Nat :=
  nightHoursFn c.night_start c.night_end

/-- `Config.get_night_hours`: the cron hour expression
`",".join(str(h) for h in hours)`. -/
def Config.get_night_hours (c : Config) : String :=
  String.intercalate "," (c.nightHoursList.map toString)

/-- The minute list built by `Config.get_minute_pattern`:
`list(range(0, 60, interval_minutes))`. -/
def Config.minutesList (c : Config) : List Nat :=
  pyRangeStep 0 60 c.interval_minutes

/-- `Config.get_minute_pattern`: the cron minute expression
`",".join(str(m) for m in minutes)`. -/
def Config.get_minute_pattern (c : Config) : String :=
  String.intercalate "," (c.minutesList.map toString)

/-- `Config.get_last_breath_time`: human-readable 12-hour rendering of
`night_end:00`. -/
def Config.get_last_breath_time (c : Config) : String :=
  let hour := c.night_end
  if hour = 0 then "12:00 AM"
  else if hour < 12 then toString hour ++ ":00 AM"
  else if hour = 12 then "12:00 PM"
  else toString (hour - 12) ++ ":00 PM"

/-- A wall-clock instant (`datetime.now()`): calendar day number, hour of
day, minute of hour. -/
structure Now where
  day : Int
  hour : Nat
  minute : Nat
deriving DecidableEq

/-- Total minutes since day 0, used to express that a sequence of wakeups
has non-decreasing clock time. -/
def timeKey (n : Now) : Int :=
  n.day * 1440 + n.hour * 60 + n.minute

/-- Two-digit zero-padded decimal rendering, as in `strftime`. -/
def pad2 (n : Nat) : String :=
  if n < 10 then "0" ++ toString n else toString n

/-- Python `str.lstrip("0")`: drop every leading `0` character. -/
def dropLeadingZeros (s : String) : String :=
  String.mk (s.toList.dropWhile (fun c => c = '0'))

/-- `now.strftime("%I:%M %p").lstrip("0")`: 12-hour time such as
`2:30 AM`, with no leading zero. -/
def timeString (now : Now) : String :=
  dropLeadingZeros
    (pad2 (if now.hour % 12 = 0 then 12 else now.hour % 12)
      ++ ":" ++ pad2 now.minute ++ " "
      ++ (if now.hour < 12 then "AM" else "PM"))

/-- The mutable session fields of the Python `Solitude` class:
`self.session_id` (a UUID string or `None`) and `self.tonight_date`
(an ISO date string or `None`). -/
structure SolState where
  session_id : Option Nat
  tonight_date : Option Int
deriving DecidableEq

/-- Presence and content of the two prompt template files; `none` models
`FileNotFoundError` at `read_text()` time, so a fresh `FS` value at each
call models the files being re-read from disk on every wakeup. -/
structure FS where
  first_breath_file : Option String
  last_breath_file : Option String
deriving DecidableEq

/-- Result of one `subprocess.run` invocation of the agent: normal
completion with return code and captured output, `TimeoutExpired`, or
any other spawn exception. -/
inductive Outcome
  | completed (returncode : Int) (stdout : String) (stderr : String)
  | timeout
  | spawnError
deriving DecidableEq

/-- An agent invocation fails when the process exits non-zero, times
out, or cannot be spawned. -/
def Outcome.isFailure : Outcome → Prop
  | .completed rc _ _ => rc ≠ 0
  | .timeout => True
  | .spawnError => True

/-- The command line passed to the agent: `--session-id X --print prompt`
(new session) or `--resume X --print prompt`. -/
inductive Cmd
  | newSession (session_id : Option Nat) (prompt : String)
  | resume (session_id : Option Nat) (prompt : String)
deriving DecidableEq

/-- One block appended to a nightly output log file by
`Solitude.log_output`: the file it went to (named by `tonight_date`),
the optional night header (`=== Night of D ===` and `Session: S` lines,
written only when `is_first`), the timestamp header
(`--- time_str ---`), and the stripped output body. -/
structure LogEntry where
  fileDate : Option Int
  nightHeader : Option (Option Int × Option Nat)
  timeStr : String
  body : String
deriving DecidableEq

/-- `Solitude._get_tonight_date`: if the current hour is before
`night_end` we are after midnight but still in last night, so use
yesterday's date; otherwise today's. -/
def get_tonight_date (cfg : Config) (now : Now) : Int :=
  if now.hour < cfg.night_end then now.day - 1 else now.day

/-- `Solitude._is_first_breath`: true if there is no session, or the
stored date differs from the freshly computed one. -/
def is_first_breath (cfg : Config) (st : SolState) (now : Now) : Bool :=
  let current_date := get_tonight_date cfg now
  if st.session_id = none then true
  else if st.tonight_date ≠ some current_date then true
  else false

/-- `Solitude.build_prompt`: the `is_last` branch loads the last-breath
template (fallback farewell if the file is missing), the `is_first`
branch loads the first-breath template and the computed last-breath
time (fallback if missing), otherwise the fixed middle phrase; all
prefixed with the current 12-hour time string. -/
def build_prompt (cfg : Config) (fs : FS) (now : Now)
    (is_first : Bool) (is_last : Bool) : String :=
  let time_str := timeString now
  if is_last then
    match fs.last_breath_file with
    | some last_breath_text =>
        "It's " ++ time_str ++ ".\n\n" ++ last_breath_text
    | none =>
        "It's " ++ time_str ++ ". The night ends. Rest well."
  else if is_first then
    match fs.first_breath_file with
    | some first_breath_text =>
        "It's " ++ time_str ++ ". Your last heartbeat tonight will be at "
          ++ cfg.get_last_breath_time ++ ".\n\n" ++ first_breath_text
    | none =>
        "It's " ++ time_str ++ ". The night begins. You have time alone."
  else
    "It's " ++ time_str ++ ". You have time alone."

/-- `Solitude.log_output`: append one block to tonight's output log file
(the file named by the current `tonight_date`), with the night/session
header exactly when `is_first`, the 12-hour timestamp header, and the
stripped output. -/
def log_output (st : SolState) (now : Now) (output : String)
    (is_first : Bool) (log : List LogEntry) : List LogEntry :=
  log ++ [{ fileDate := st.tonight_date
          , nightHeader :=
              if is_first then some (st.tonight_date, st.session_id) else none
          , timeStr := timeString now
          , body := output.trim }]

/-- Result of one `Solitude.heartbeat` call: the session state after the
handler returns, the output log, the command passed to the agent, and
the first/middle classification made at the top of the handler. -/
structure HBResult where
  state : SolState
  log : List LogEntry
  cmd : Cmd
  is_first : Bool
deriving DecidableEq

/-- `Solitude.heartbeat`, the ordinary-wakeup handler: classify
first/middle; on first, mint a session id and set `tonight_date`
(before the agent is invoked); build the prompt; invoke the agent with
`--session-id` (first) or `--resume` (middle); on non-zero exit,
timeout or spawn error return with the log untouched; on success with
non-empty stdout append to tonight's log. Exceptions never escape the
handler. -/
def heartbeat (cfg : Config) (fs : FS) (st : SolState) (now : Now)
    (fresh : Nat) (outcome : Outcome) (log : List LogEntry) : HBResult :=
  let is_first := is_first_breath cfg st now
  let st1 : SolState :=
    if is_first then
      { session_id := some fresh
      , tonight_date := some (get_tonight_date cfg now) }
    else st
  let prompt := build_prompt cfg fs now is_first false
  let cmd : Cmd :=
    if is_first then Cmd.newSession st1.session_id prompt
    else Cmd.resume st1.session_id prompt
  match outcome with
  | .completed rc stdout _ =>
      if rc ≠ 0 then ⟨st1, log, cmd, is_first⟩
      else if stdout ≠ "" then
        ⟨st1, log_output st1 now stdout is_first log, cmd, is_first⟩
      else ⟨st1, log, cmd, is_first⟩
  | .timeout => ⟨st1, log, cmd, is_first⟩
  | .spawnError => ⟨st1, log, cmd, is_first⟩

/-- Result of one `Solitude.last_breath` call. -/
structure LBResult where
  state : SolState
  log : List LogEntry
  cmd : Cmd
deriving DecidableEq

/-- `Solitude.last_breath`, the final-wakeup handler: if no session
exists, defensively mint one and set `tonight_date`; build the
last-breath prompt; always invoke the agent with `--resume`; same
outcome handling as `heartbeat`, with `log_output` called with
`is_first = false`. -/
def last_breath (cfg : Config) (fs : FS) (st : SolState) (now : Now)
    (fresh : Nat) (outcome : Outcome) (log : List LogEntry) : LBResult :=
  let st1 : SolState :=
    if st.session_id = none then
      { session_id := some fresh
      , tonight_date := some (get_tonight_date cfg now) }
    else st
  let prompt := build_prompt cfg fs now false true
  let cmd : Cmd := Cmd.resume st1.session_id prompt
  match outcome with
  | .completed rc stdout _ =>
      if rc ≠ 0 then ⟨st1, log, cmd⟩
      else if stdout ≠ "" then
        ⟨st1, log_output st1 now stdout false log, cmd⟩
      else ⟨st1, log, cmd⟩
  | .timeout => ⟨st1, log, cmd⟩
  | .spawnError => ⟨st1, log, cmd⟩

/-- One ordinary wakeup event: the clock instant, the UUID the handler
would mint if this turns out to be a first breath, and the agent
invocation outcome. -/
structure OrdEvent where
  now : Now
  fresh : Nat
  outcome : Outcome
deriving DecidableEq

/-- Which timer fired: the recurring ordinary trigger or the final
last-breath trigger. -/
inductive EventKind
  | ordinary
  | last
deriving DecidableEq

/-- One wakeup event of either kind. -/
structure Event where
  kind : EventKind
  now : Now
  fresh : Nat
  outcome : Outcome
deriving DecidableEq

/-- Run a sequence of ordinary wakeups through `heartbeat`, recording
for each one the first/middle classification and the night date
computed from its clock. -/
def runHeartbeats (cfg : Config) (fs : FS) :
    SolState → List LogEntry → List OrdEvent → List (Bool × Int)
  | _, _, [] => []
  | st, log, e :: es =>
      let r := heartbeat cfg fs st e.now e.fresh e.outcome log
      (r.is_first, get_tonight_date cfg e.now)
        :: runHeartbeats cfg fs r.state r.log es

/-- Run a sequence of mixed ordinary/last wakeups, returning the final
session state, the final output log, and per event the classification
(`some is_first` for ordinary wakeups, `none` for the last-breath
handler, which does not classify) paired with the night date of its
clock. -/
def runEvents (cfg : Config) (fs : FS) :
    SolState → List LogEntry → List Event →
      SolState × List LogEntry × List (Option Bool × Int)
  | st, log, [] => (st, log, [])
  | st, log, e :: es =>
      match e.kind with
      | .ordinary =>
          let r := heartbeat cfg fs st e.now e.fresh e.outcome log
          let rest := runEvents cfg fs r.state r.log es
          (rest.1, rest.2.1,
            (some r.is_first, get_tonight_date cfg e.now) :: rest.2.2)
      | .last =>
          let r := last_breath cfg fs st e.now e.fresh e.outcome log
          let rest := runEvents cfg fs r.state r.log es
          (rest.1, rest.2.1, (none, get_tonight_date cfg e.now) :: rest.2.2)

/-- Number of events in a classification trace that were classified
first and fall on night date `d`. -/
def countFirst (d : Int) : List (Bool × Int) → Nat
  | [] => 0
  | p :: ps => (if p.1 = true ∧ p.2 = d then 1 else 0) + countFirst d ps

/-- The information `_is_first_breath` extracts from the state: `none`
when there is no session or no stored date to match, otherwise the
stored night date. -/
def prevOf (st : SolState) : Option Int :=
  if st.session_id = none then none else st.tonight_date

/-- Reference trace of classifications over the sequence of computed
night dates: a wakeup is flagged iff the carried date does not match
the preceding one. -/
def specRun : Option Int → List Int → List (Bool × Int)
  | _, [] => []
  | prev, d :: ds => (decide (prev ≠ some d), d) :: specRun (some d) ds

/-! Basic lemmas about single handler calls. -/

theorem is_first_breath_eq_prevOf (cfg : Config) (st : SolState) (now : Now) :
    is_first_breath cfg st now
      = decide (prevOf st ≠ some (get_tonight_date cfg now)) := by
  unfold is_first_breath prevOf
  cases h : st.session_id <;> simp [h]

theorem is_first_breath_true_iff (cfg : Config) (st : SolState) (now : Now) :
    is_first_breath cfg st now = true
      ↔ (st.session_id = none
          ∨ st.tonight_date ≠ some (get_tonight_date cfg now)) := by
  unfold is_first_breath
  cases h : st.session_id <;> simp [h]

theorem heartbeat_is_first (cfg : Config) (fs : FS) (st : SolState)
    (now : Now) (fresh : Nat) (out : Outcome) (log : List LogEntry) :
    (heartbeat cfg fs st now fresh out log).is_first
      = is_first_breath cfg st now := by
  cases out with
  | completed rc stdout stderr =>
      simp only [heartbeat]
      split
      · rfl
      · split <;> rfl
  | timeout => rfl
  | spawnError => rfl

theorem heartbeat_state (cfg : Config) (fs : FS) (st : SolState)
    (now : Now) (fresh : Nat) (out : Outcome) (log : List LogEntry) :
    (heartbeat cfg fs st now fresh out log).state
      = if is_first_breath cfg st now then
          { session_id := some fresh
          , tonight_date := some (get_tonight_date cfg now) }
        else st := by
  cases out with
  | completed rc stdout stderr =>
      simp only [heartbeat]
      split
      · rfl
      · split <;> rfl
  | timeout => rfl
  | spawnError => rfl

theorem prevOf_heartbeat_state (cfg : Config) (fs : FS) (st : SolState)
    (now : Now) (fresh : Nat) (out : Outcome) (log : List LogEntry) :
    prevOf (heartbeat cfg fs st now fresh out log).state
      = some (get_tonight_date cfg now) := by
  rw [heartbeat_state]
  by_cases h : is_first_breath cfg st now = true
  · rw [if_pos h]; rfl
  · rw [if_neg h]
    have h2 := is_first_breath_eq_prevOf cfg st now
    have hb : is_first_breath cfg st now = false := by
      cases hbb : is_first_breath cfg st now
      · rfl
      · exact absurd hbb h
    rw [hb] at h2
    by_contra hne
    simp [hne] at h2

theorem is_first_breath_false_of_prevOf (cfg : Config) (st : SolState)
    (now : Now) (h : prevOf st = some (get_tonight_date cfg now)) :
    is_first_breath cfg st now = false := by
  rw [is_first_breath_eq_prevOf, h]
  simp

theorem heartbeat_log_of_failure (cfg : Config) (fs : FS) (st : SolState)
    (now : Now) (fresh : Nat) (out : Outcome) (log : List LogEntry)
    (h : out.isFailure) :
    (heartbeat cfg fs st now fresh out log).log = log := by
  cases out with
  | completed rc stdout stderr =>
      simp only [Outcome.isFailure] at h
      simp only [heartbeat]
      rw [if_pos h]
  | timeout => rfl
  | spawnError => rfl

/-! Trace lemmas: the classification sequence produced by repeated
`heartbeat` calls depends only on the computed night dates and on the
stored date of the starting state. -/

theorem runHeartbeats_eq_specRun (cfg : Config) (fs : FS) :
    ∀ (evs : List OrdEvent) (st : SolState) (log : List LogEntry),
      runHeartbeats cfg fs st log evs
        = specRun (prevOf st)
            (evs.map (fun e => get_tonight_date cfg e.now)) := by
  intro evs
  induction evs with
  | nil => intro st log; rfl
  | cons e es ih =>
      intro st log
      simp only [runHeartbeats, List.map_cons, specRun]
      refine congrArg₂ (· :: ·) ?_ ?_
      · rw [heartbeat_is_first, is_first_breath_eq_prevOf]
      · rw [ih, prevOf_heartbeat_state]

theorem specRun_count_some (d : Int) :
    ∀ (ds : List Int) (p : Int),
      ds.Pairwise (· ≤ ·) → (∀ x ∈ ds, p ≤ x) →
      countFirst d (specRun (some p) ds)
        = if d ∈ ds ∧ d ≠ p then 1 else 0 := by
  intro ds
  induction ds with
  | nil => intro p _ _; simp [specRun, countFirst]
  | cons d0 ds ih =>
      intro p hs hp
      obtain ⟨hd0, hs2⟩ := List.pairwise_cons.mp hs
      have hpd0 : p ≤ d0 := hp d0 (List.mem_cons_self d0 ds)
      simp only [specRun, countFirst]
      rw [ih d0 hs2 hd0]
      by_cases hpe : p = d0
      · have hflag : (decide (some p ≠ some d0)) = false := by
          simp [hpe]
        rw [hflag]
        have hiff : (d ∈ ds ∧ d ≠ d0) ↔ (d ∈ (d0 :: ds) ∧ d ≠ p) := by
          rw [hpe]
          simp only [List.mem_cons]
          constructor
          · rintro ⟨hm, hne⟩
            exact ⟨Or.inr hm, hne⟩
          · rintro ⟨hm, hne⟩
            rcases hm with he | hm
            · exact absurd he hne
            · exact ⟨hm, hne⟩
        rw [if_congr hiff rfl rfl]
        simp
      · have hflag : (decide (some p ≠ some d0)) = true := by
          simp [hpe]
        rw [hflag]
        simp only [Bool.true_eq, true_and]
        by_cases hdd : d = d0
        · have hd0d : d0 = d := hdd.symm
          have hdp : ¬ (d = p) := fun h => hpe (h ▸ hdd.symm ▸ rfl)
          have hnot : ¬ (d ∈ ds ∧ d ≠ d0) := fun h => h.2 hdd
          rw [if_pos hd0d, if_neg hnot,
            if_pos ⟨List.mem_cons.mpr (Or.inl hdd), hdp⟩]
        · have hd0d : ¬ (d0 = d) := fun h => hdd h.symm
          rw [if_neg hd0d]
          have hne0 : (d ∈ ds ∧ d ≠ d0) ↔ (d ∈ (d0 :: ds) ∧ d ≠ p) := by
            constructor
            · rintro ⟨hm, _⟩
              refine ⟨List.mem_cons_of_mem d0 hm, ?_⟩
              intro hdp
              exact hpe (le_antisymm hpd0 (hdp ▸ hd0 d hm))
            · rintro ⟨hm, hdp⟩
              rcases List.mem_cons.mp hm with h1 | h1
              · exact absurd h1 hdd
              · exact ⟨h1, hdd⟩
          rw [if_congr hne0 rfl rfl]
          simp

theorem specRun_count_none (d : Int) (ds : List Int)
    (hs : ds.Pairwise (· ≤ ·)) :
    countFirst d (specRun none ds) = if d ∈ ds then 1 else 0 := by
  cases ds with
  | nil => simp [specRun, countFirst]
  | cons d0 ds =>
      obtain ⟨hd0, hs2⟩ := List.pairwise_cons.mp hs
      simp only [specRun, countFirst]
      rw [specRun_count_some d ds d0 hs2 hd0]
      have hflag : (decide ((none : Option Int) ≠ some d0)) = true := by
        simp
      rw [hflag]
      simp only [Bool.true_eq, true_and]
      by_cases hdd : d = d0
      · have hd0d : d0 = d := hdd.symm
        have hnot : ¬ (d ∈ ds ∧ d ≠ d0) := fun h => h.2 hdd
        rw [if_pos hd0d, if_neg hnot,
          if_pos (List.mem_cons.mpr (Or.inl hdd))]
      · have hd0d : ¬ (d0 = d) := fun h => hdd h.symm
        rw [if_neg hd0d]
        have hne0 : (d ∈ ds ∧ d ≠ d0) ↔ d ∈ (d0 :: ds) := by
          constructor
          · rintro ⟨hm, _⟩
            exact List.mem_cons_of_mem d0 hm
          · intro hm
            rcases List.mem_cons.mp hm with h1 | h1
            · exact absurd h1 hdd
            · exact ⟨h1, hdd⟩
        rw [if_congr hne0 rfl rfl]
        simp

/-! The computed night date is monotone along non-decreasing clock
time, for in-range clock values and `night_end ≤ 23`. -/

theorem get_tonight_date_mono (cfg : Config) (hne : cfg.night_end ≤ 23)
    (a b : Now) (ha : a.hour < 24) (hb : b.hour < 24)
    (ham : a.minute < 60) (hbm : b.minute < 60)
    (hab : timeKey a ≤ timeKey b) :
    get_tonight_date cfg a ≤ get_tonight_date cfg b := by
  unfold get_tonight_date
  unfold timeKey at hab
  split <;> split <;> omega

theorem dates_pairwise (cfg : Config) (hne : cfg.night_end ≤ 23)
    (evs : List OrdEvent)
    (hv : ∀ e ∈ evs, e.now.hour < 24 ∧ e.now.minute < 60)
    (hs : evs.Pairwise (fun a b => timeKey a.now ≤ timeKey b.now)) :
    (evs.map (fun e => get_tonight_date cfg e.now)).Pairwise (· ≤ ·) := by
  rw [List.pairwise_map]
  refine List.Pairwise.imp_of_mem ?_ hs
  intro a b ha hb hab
  exact get_tonight_date_mono cfg hne a.now b.now
    (hv a ha).1 (hv b hb).1 (hv a ha).2 (hv b hb).2 hab

/-! Exhaustive checks of the two pure schedule calculators over their
full configuration domains. -/

/-- The structural description of the hour list for one `(s, e)` pair:
the wrap/no-wrap shape, no duplicates, and (for `s ≠ e`) exclusion of
`night_end` itself. -/
abbrev nightHoursProp (s e : Nat) : Prop :=
  ((s > (if e > 0 then e - 1 else 23) →
      nightHoursFn s e
        = List.range' s (24 - s)
            ++ List.range' 0 ((if e > 0 then e - 1 else 23) + 1))
    ∧ (s ≤ (if e > 0 then e - 1 else 23) →
        nightHoursFn s e
          = List.range' s ((if e > 0 then e - 1 else 23) + 1 - s))
    ∧ (nightHoursFn s e).Nodup
    ∧ (s ≠ e → e ∉ nightHoursFn s e))

set_option maxHeartbeats 1000000 in
theorem nightHours_check :
    ∀ s ∈ List.range 24, ∀ e ∈ List.range 24, nightHoursProp s e := by
  decide

/-- The structural description of the minute list for one interval `k`:
the increasing list of all multiples of `k` below 60, starting at 0,
with exactly `60 / k` elements when `k` divides 60. -/
abbrev minutesProp (k : Nat) : Prop :=
  pyRangeStep 0 60 k = (List.range 60).filter (fun m => m % k == 0)
    ∧ (pyRangeStep 0 60 k).head? = some 0
    ∧ (k ∣ 60 → (pyRangeStep 0 60 k).length = 60 / k)

set_option maxHeartbeats 1000000 in
theorem minutes_check : ∀ k ∈ List.range 61, 0 < k → minutesProp k := by
  decide

/-! Claim theorems. -/

/-- Claim C1 (amended): for every configuration with night_start and
night_end in [0,23], `get_night_hours` computes
`end_hour = night_end - 1` (23 when `night_end = 0`) and builds, when
`night_start > end_hour`, the union of `[night_start, 23]` and
`[0, end_hour]` in that order, and otherwise the contiguous range
`[night_start, end_hour]`; the hour list has no duplicates, and
whenever `night_start ≠ night_end` it never contains `night_end`
itself. (Amendment: the original exclusion claim fails precisely when
`night_start = night_end`, where the wrap branch yields all 24 hours,
night_end included — see the counterexample.) -/
theorem get_night_hours_spec (c : Config)
    (hs : c.night_start ≤ 23) (he : c.night_end ≤ 23) :
    (c.night_start > (if c.night_end > 0 then c.night_end - 1 else 23) →
        c.nightHoursList
          = List.range' c.night_start (24 - c.night_start)
              ++ List.range' 0
                  ((if c.night_end > 0 then c.night_end - 1 else 23) + 1))
      ∧ (c.night_start ≤ (if c.night_end > 0 then c.night_end - 1 else 23) →
          c.nightHoursList
            = List.range' c.night_start
                ((if c.night_end > 0 then c.night_end - 1 else 23) + 1
                  - c.night_start))
      ∧ c.nightHoursList.Nodup
      ∧ (c.night_start ≠ c.night_end → c.night_end ∉ c.nightHoursList) := by
  have h := nightHours_check c.night_start (by rw [List.mem_range]; omega)
    c.night_end (by rw [List.mem_range]; omega)
  exact h

/-- Witness for C1: the documented example night_start=22, night_end=5
wraps past midnight into hours 22,23,0,1,2,3,4, has no duplicates and
excludes hour 5. -/
theorem get_night_hours_spec_witness :
    Config.nightHoursList ⟨22, 5, 20⟩
        = List.range' 22 (24 - 22)
            ++ List.range' 0 ((if 5 > 0 then 5 - 1 else 23) + 1)
      ∧ (Config.nightHoursList ⟨22, 5, 20⟩).Nodup
      ∧ 5 ∉ Config.nightHoursList ⟨22, 5, 20⟩ := by
  have h := get_night_hours_spec ⟨22, 5, 20⟩ (by decide) (by decide)
  exact ⟨h.1 (by decide), h.2.2.1, h.2.2.2 (by decide)⟩

/-- Claim C1 counterexample: with night_start = night_end = 22 (both in
[0,23]) the wrap branch produces all 24 hours of the day, so the hour
list does contain night_end itself, refuting the claim that it never
does. -/
theorem get_night_hours_counterexample :
    (22 : Nat) ∈ Config.nightHoursList ⟨22, 22, 20⟩
      ∧ (Config.nightHoursList ⟨22, 22, 20⟩).length = 24 := by
  decide

/-- Claim C9: for every interval_minutes in (0,60],
`get_minute_pattern` builds the increasing list of all multiples of
interval_minutes strictly below 60, starting at 0; when
interval_minutes divides 60 the list has exactly 60/interval_minutes
elements. -/
theorem get_minute_pattern_spec (c : Config)
    (h1 : 0 < c.interval_minutes) (h2 : c.interval_minutes ≤ 60) :
    c.minutesList
        = (List.range 60).filter (fun m => m % c.interval_minutes == 0)
      ∧ c.minutesList.head? = some 0
      ∧ (c.interval_minutes ∣ 60 →
          c.minutesList.length = 60 / c.interval_minutes) := by
  have h := minutes_check c.interval_minutes (by rw [List.mem_range]; omega) h1
  exact h

/-- Witness for C9: interval 20 gives minutes 0, 20, 40 — the multiples
of 20 below 60 — with 60/20 = 3 elements. -/
theorem get_minute_pattern_spec_witness :
    Config.minutesList ⟨22, 5, 20⟩
        = (List.range 60).filter (fun m => m % 20 == 0)
      ∧ (Config.minutesList ⟨22, 5, 20⟩).head? = some 0
      ∧ (Config.minutesList ⟨22, 5, 20⟩).length = 60 / 20 := by
  have h := get_minute_pattern_spec ⟨22, 5, 20⟩ (by decide) (by decide)
  exact ⟨h.1, h.2.1, h.2.2 (by decide)⟩

/-- Claim C4: for every clock time and night_end in [1,23],
`_get_tonight_date` returns yesterday's date when the current hour is
before night_end and today's date otherwise; and the value a
first-classified heartbeat stores is exactly the one recomputed from
that wakeup's clock, for any session state — it is a function of the
current clock, not a cached value. -/
theorem get_tonight_date_spec (cfg : Config) (now : Now)
    (h1 : 1 ≤ cfg.night_end) (h2 : cfg.night_end ≤ 23) :
    (now.hour < cfg.night_end → get_tonight_date cfg now = now.day - 1)
      ∧ (cfg.night_end ≤ now.hour → get_tonight_date cfg now = now.day)
      ∧ ∀ (fs : FS) (st : SolState) (fresh : Nat) (out : Outcome)
          (log : List LogEntry),
          is_first_breath cfg st now = true →
          (heartbeat cfg fs st now fresh out log).state.tonight_date
            = some (get_tonight_date cfg now) := by
  refine ⟨?_, ?_, ?_⟩
  · intro h
    unfold get_tonight_date
    rw [if_pos h]
  · intro h
    unfold get_tonight_date
    rw [if_neg (by omega)]
  · intro fs st fresh out log hf
    rw [heartbeat_state, if_pos hf]

/-- Witness for C4: with night_end = 5, a wakeup at 03:30 on day 100
belongs to night 99 (yesterday) and a wakeup at 22:00 on day 100 to
night 100 (today). -/
theorem get_tonight_date_spec_witness :
    get_tonight_date ⟨22, 5, 20⟩ ⟨100, 3, 30⟩ = 99
      ∧ get_tonight_date ⟨22, 5, 20⟩ ⟨100, 22, 0⟩ = 100 := by
  have ha := get_tonight_date_spec ⟨22, 5, 20⟩ ⟨100, 3, 30⟩ (by decide) (by decide)
  have hb := get_tonight_date_spec ⟨22, 5, 20⟩ ⟨100, 22, 0⟩ (by decide) (by decide)
  exact ⟨ha.1 (by decide), hb.2.1 (by decide)⟩

/-- Claim C2 (amended): for every sequence of ordinary wakeup events
with monotonically non-decreasing clock time (and in-range clock
fields), a wakeup is classified first iff no session exists or the
night date computed from its clock differs from the stored one; the
state after a wakeup is the pre-invocation state — session_id and
tonight_date are assigned before the invocation is attempted, whatever
the outcome — and, starting from the initial no-session state, exactly
one ordinary wakeup per distinct night_date value attained in the
sequence is classified first, even when invocations fail.
(Amendment: the original claim quantified over sequences that include
last wakeups; `last_breath` does not classify, and when it mints a
session defensively it pre-empts the first classification for that
night, so the exactly-once property holds for the ordinary-wakeup
handler — see the counterexample.) -/
theorem classify_first_exactly_once (cfg : Config) (fs : FS)
    (hne : cfg.night_end ≤ 23) (evs : List OrdEvent)
    (hv : ∀ e ∈ evs, e.now.hour < 24 ∧ e.now.minute < 60)
    (hs : evs.Pairwise (fun a b => timeKey a.now ≤ timeKey b.now)) :
    (∀ (st : SolState) (now : Now) (fresh : Nat) (out : Outcome)
        (log : List LogEntry),
        (heartbeat cfg fs st now fresh out log).is_first = true
          ↔ (st.session_id = none
              ∨ st.tonight_date ≠ some (get_tonight_date cfg now)))
      ∧ (∀ (st : SolState) (now : Now) (fresh : Nat) (out : Outcome)
          (log : List LogEntry),
          (heartbeat cfg fs st now fresh out log).state
            = if is_first_breath cfg st now then
                { session_id := some fresh
                , tonight_date := some (get_tonight_date cfg now) }
              else st)
      ∧ ∀ d : Int,
          countFirst d (runHeartbeats cfg fs ⟨none, none⟩ [] evs)
            = if d ∈ evs.map (fun e => get_tonight_date cfg e.now)
              then 1 else 0 := by
  refine ⟨?_, ?_, ?_⟩
  · intro st now fresh out log
    rw [heartbeat_is_first]
    exact is_first_breath_true_iff cfg st now
  · intro st now fresh out log
    exact heartbeat_state cfg fs st now fresh out log
  · intro d
    rw [runHeartbeats_eq_specRun]
    have hp : prevOf ⟨none, none⟩ = none := rfl
    rw [hp]
    exact specRun_count_none d _ (dates_pairwise cfg hne evs hv hs)

/-- Witness for C2: two same-night wakeups at 22:00 (which times out)
and 22:20; night 0 gets exactly one first classification even though
the first invocation failed. -/
theorem classify_first_exactly_once_witness :
    countFirst 0 (runHeartbeats ⟨22, 5, 20⟩ ⟨none, none⟩ ⟨none, none⟩ []
        [⟨⟨0, 22, 0⟩, 1, Outcome.timeout⟩,
         ⟨⟨0, 22, 20⟩, 2, Outcome.completed 0 "hello" ""⟩]) = 1 := by
  have h := (classify_first_exactly_once ⟨22, 5, 20⟩ ⟨none, none⟩
    (by decide)
    [⟨⟨0, 22, 0⟩, 1, Outcome.timeout⟩,
     ⟨⟨0, 22, 20⟩, 2, Outcome.completed 0 "hello" ""⟩]
    (by decide) (by decide)).2.2 0
  rw [h]
  decide

/-- Claim C2 counterexample: a last wakeup with no session (at 22:00 of
night 0, with non-decreasing clock) defensively mints a session without
classifying, and the following ordinary wakeup of the same night is
then classified middle — so night-date 0 is attained by the sequence
yet no wakeup at all is classified first, refuting the exactly-once
property as stated over sequences that include last wakeups. -/
theorem classify_first_counterexample :
    List.Pairwise (fun a b : Event => timeKey a.now ≤ timeKey b.now)
        [⟨EventKind.last, ⟨0, 22, 0⟩, 7, Outcome.completed 0 "bye" ""⟩,
         ⟨EventKind.ordinary, ⟨0, 22, 20⟩, 8, Outcome.completed 0 "hi" ""⟩]
      ∧ (runEvents ⟨22, 5, 20⟩ ⟨none, none⟩ ⟨none, none⟩ []
          [⟨EventKind.last, ⟨0, 22, 0⟩, 7, Outcome.completed 0 "bye" ""⟩,
           ⟨EventKind.ordinary, ⟨0, 22, 20⟩, 8,
             Outcome.completed 0 "hi" ""⟩]).2.2
        = [(none, 0), (some false, 0)] := by
  decide

/-- Claim C3: at every ordinary wakeup whose agent invocation fails
(non-zero exit, timeout, or spawn error), the handler returns — the
model is a total function, mirroring that every exception is caught —
with the output log untouched, the state equal to the pre-invocation
state (the minted one on a first wakeup, the unchanged one otherwise),
and any later wakeup of the same night classifying as middle. -/
theorem heartbeat_failure_spec (cfg : Config) (fs : FS) (st : SolState)
    (now : Now) (fresh : Nat) (out : Outcome) (log : List LogEntry)
    (hf : out.isFailure) :
    (heartbeat cfg fs st now fresh out log).log = log
      ∧ (heartbeat cfg fs st now fresh out log).state
          = (if is_first_breath cfg st now then
              { session_id := some fresh
              , tonight_date := some (get_tonight_date cfg now) }
            else st)
      ∧ ∀ now2 : Now,
          get_tonight_date cfg now2 = get_tonight_date cfg now →
          is_first_breath cfg
            (heartbeat cfg fs st now fresh out log).state now2 = false := by
  refine ⟨heartbeat_log_of_failure cfg fs st now fresh out log hf,
    heartbeat_state cfg fs st now fresh out log, ?_⟩
  intro now2 h2
  apply is_first_breath_false_of_prevOf
  rw [prevOf_heartbeat_state, h2]

/-- Witness for C3: a middle wakeup at 23:00 of night 0 times out; the
log stays empty and a wakeup at 02:00 after midnight (still night 0)
classifies as middle. -/
theorem heartbeat_failure_spec_witness :
    (heartbeat ⟨22, 5, 20⟩ ⟨none, none⟩ ⟨some 1, some 0⟩ ⟨0, 23, 0⟩ 5
        Outcome.timeout []).log = []
      ∧ is_first_breath ⟨22, 5, 20⟩
          (heartbeat ⟨22, 5, 20⟩ ⟨none, none⟩ ⟨some 1, some 0⟩ ⟨0, 23, 0⟩ 5
            Outcome.timeout []).state ⟨1, 2, 0⟩ = false := by
  have h := heartbeat_failure_spec ⟨22, 5, 20⟩ ⟨none, none⟩ ⟨some 1, some 0⟩
    ⟨0, 23, 0⟩ 5 Outcome.timeout [] trivial
  exact ⟨h.1, h.2.2 ⟨1, 2, 0⟩ (by decide)⟩

/-- Claim C5 (amended): every block a successful ordinary wakeup
appends to the output log carries the human-readable 12-hour timestamp
header and goes to the file of the stored night date; it carries the
night/session header line exactly when that wakeup was classified
first. (Amendment: the original claim required the header on whichever
wakeup produces the night's first appended block; the code ties the
header to the first classification, so when the first-classified
wakeup's invocation fails, the night's first appended block has no
night header — see the counterexample.) -/
theorem heartbeat_append_header (cfg : Config) (fs : FS) (st : SolState)
    (now : Now) (fresh : Nat) (stdout stderr : String)
    (log : List LogEntry) (h : stdout ≠ "") :
    ∃ b : LogEntry,
      (heartbeat cfg fs st now fresh
          (Outcome.completed 0 stdout stderr) log).log = log ++ [b]
        ∧ b.timeStr = timeString now
        ∧ b.fileDate
            = (heartbeat cfg fs st now fresh
                (Outcome.completed 0 stdout stderr) log).state.tonight_date
        ∧ (b.nightHeader ≠ none ↔ is_first_breath cfg st now = true)
        ∧ b.body = stdout.trim := by
  have hrc : ¬ ((0 : Int) ≠ 0) := by simp
  simp only [heartbeat, log_output]
  rw [if_neg hrc, if_pos h]
  refine ⟨_, rfl, rfl, rfl, ?_, rfl⟩
  cases hfb : is_first_breath cfg st now <;> simp [hfb]

/-- Witness for C5: a first wakeup succeeding with output "hello"
appends one block whose night header is present. -/
theorem heartbeat_append_header_witness :
    "hello" ≠ ""
      ∧ (heartbeat ⟨22, 5, 20⟩ ⟨none, none⟩ ⟨none, none⟩ ⟨0, 22, 0⟩ 1
          (Outcome.completed 0 "hello" "") []).log.length = 1 := by
  have h := heartbeat_append_header ⟨22, 5, 20⟩ ⟨none, none⟩ ⟨none, none⟩
    ⟨0, 22, 0⟩ 1 "hello" "" [] (by decide)
  obtain ⟨b, hb, _⟩ := h
  rw [hb]
  exact ⟨by decide, rfl⟩

/-- Claim C5 counterexample: the first wakeup of night 0 (22:00) times
out, so nothing is appended; the middle wakeup at 22:20 succeeds, and
the resulting block — the first block appended to night 0's log file —
carries no night/session header. -/
theorem first_block_header_counterexample :
    ((runEvents ⟨22, 5, 20⟩ ⟨none, none⟩ ⟨none, none⟩ []
        [⟨EventKind.ordinary, ⟨0, 22, 0⟩, 1, Outcome.timeout⟩,
         ⟨EventKind.ordinary, ⟨0, 22, 20⟩, 2,
           Outcome.completed 0 "hello" ""⟩]).2.1).map
        (fun b => (b.fileDate, b.nightHeader))
      = [(some 0, none)]
      ∧ (runEvents ⟨22, 5, 20⟩ ⟨none, none⟩ ⟨none, none⟩ []
          [⟨EventKind.ordinary, ⟨0, 22, 0⟩, 1, Outcome.timeout⟩,
           ⟨EventKind.ordinary, ⟨0, 22, 20⟩, 2,
             Outcome.completed 0 "hello" ""⟩]).2.2
        = [(some true, 0), (some false, 0)] := by
  decide

/-! Lemmas about the final-wakeup handler. -/

theorem last_breath_state (cfg : Config) (fs : FS) (st : SolState)
    (now : Now) (fresh : Nat) (out : Outcome) (log : List LogEntry) :
    (last_breath cfg fs st now fresh out log).state
      = if st.session_id = none then
          { session_id := some fresh
          , tonight_date := some (get_tonight_date cfg now) }
        else st := by
  cases out with
  | completed rc stdout stderr =>
      simp only [last_breath]
      split
      · rfl
      · split <;> rfl
  | timeout => rfl
  | spawnError => rfl

theorem last_breath_cmd (cfg : Config) (fs : FS) (st : SolState)
    (now : Now) (fresh : Nat) (out : Outcome) (log : List LogEntry) :
    (last_breath cfg fs st now fresh out log).cmd
      = Cmd.resume
          (if st.session_id = none then some fresh else st.session_id)
          (build_prompt cfg fs now false true) := by
  have hsid :
      ((if st.session_id = none then
          ({ session_id := some fresh
           , tonight_date := some (get_tonight_date cfg now) } : SolState)
        else st)).session_id
        = (if st.session_id = none then some fresh else st.session_id) := by
    rw [apply_ite SolState.session_id]
  cases out with
  | completed rc stdout stderr =>
      simp only [last_breath]
      split
      · rw [hsid]
      · split <;> rw [hsid]
  | timeout =>
      simp only [last_breath]
      rw [hsid]
  | spawnError =>
      simp only [last_breath]
      rw [hsid]

/-- Claim C6: every last wakeup invokes the agent with a resume-session
directive and never a new-session directive; when no session exists at
that moment, a fresh identity is minted and tonight_date set before the
invocation, and that freshly minted identity is the one the resume
directive carries. -/
theorem last_breath_resume_spec (cfg : Config) (fs : FS) (st : SolState)
    (now : Now) (fresh : Nat) (out : Outcome) (log : List LogEntry) :
    (∃ sid prompt,
        (last_breath cfg fs st now fresh out log).cmd
          = Cmd.resume sid prompt)
      ∧ (∀ sid prompt,
          (last_breath cfg fs st now fresh out log).cmd
            ≠ Cmd.newSession sid prompt)
      ∧ (st.session_id = none →
          (last_breath cfg fs st now fresh out log).state
              = { session_id := some fresh
                , tonight_date := some (get_tonight_date cfg now) }
            ∧ (last_breath cfg fs st now fresh out log).cmd
                = Cmd.resume (some fresh)
                    (build_prompt cfg fs now false true)) := by
  refine ⟨?_, ?_, ?_⟩
  · exact ⟨_, _, last_breath_cmd cfg fs st now fresh out log⟩
  · intro sid prompt hc
    rw [last_breath_cmd] at hc
    exact Cmd.noConfusion hc
  · intro hn
    constructor
    · rw [last_breath_state, if_pos hn]
    · rw [last_breath_cmd, if_pos hn]

/-- Witness for C6: a last wakeup at 5:00 with no session mints session
9 for night 0 and resumes exactly that session. -/
theorem last_breath_resume_spec_witness :
    (last_breath ⟨22, 5, 20⟩ ⟨none, none⟩ ⟨none, none⟩ ⟨0, 5, 0⟩ 9
        Outcome.timeout []).state
        = { session_id := some 9, tonight_date := some 0 }
      ∧ (last_breath ⟨22, 5, 20⟩ ⟨none, none⟩ ⟨none, none⟩ ⟨0, 5, 0⟩ 9
          Outcome.timeout []).cmd
          = Cmd.resume (some 9)
              (build_prompt ⟨22, 5, 20⟩ ⟨none, none⟩ ⟨0, 5, 0⟩ false true) := by
  have h := (last_breath_resume_spec ⟨22, 5, 20⟩ ⟨none, none⟩ ⟨none, none⟩
    ⟨0, 5, 0⟩ 9 Outcome.timeout []).2.2 rfl
  exact ⟨h.1, h.2⟩

/-- Claim C7: when the night-ends template file is missing,
`build_prompt` with is_last returns the minimal fallback farewell line
prefixed with the current time string instead of raising; and with the
file present its current content is what appears in the prompt — the
template is read fresh on each call, the result tracks the file state
passed in. -/
theorem build_prompt_fallback_spec (cfg : Config) (fs : FS) (now : Now)
    (isf : Bool) (h : fs.last_breath_file = none) :
    build_prompt cfg fs now isf true
        = "It's " ++ timeString now ++ ". The night ends. Rest well."
      ∧ ∀ t : String,
          build_prompt cfg
              { first_breath_file := fs.first_breath_file
              , last_breath_file := some t } now isf true
            = "It's " ++ timeString now ++ ".\n\n" ++ t := by
  constructor
  · simp only [build_prompt, if_true]
    rw [h]
  · intro t
    simp only [build_prompt, if_true]

/-- Witness for C7: at 5:00 AM with the template file missing the
fallback farewell is produced; with the file containing "farewell"
that content is used. -/
theorem build_prompt_fallback_spec_witness :
    build_prompt ⟨22, 5, 20⟩ ⟨some "rise", none⟩ ⟨0, 5, 0⟩ false true
        = "It's " ++ timeString ⟨0, 5, 0⟩ ++ ". The night ends. Rest well."
      ∧ build_prompt ⟨22, 5, 20⟩ ⟨some "rise", some "farewell"⟩ ⟨0, 5, 0⟩
          false true
        = "It's " ++ timeString ⟨0, 5, 0⟩ ++ ".\n\n" ++ "farewell" := by
  have h := build_prompt_fallback_spec ⟨22, 5, 20⟩ ⟨some "rise", none⟩
    ⟨0, 5, 0⟩ false rfl
  exact ⟨h.1, h.2 "farewell"⟩

/-- Claim C8: a last wakeup at which a session already exists leaves
session_id and tonight_date exactly as they were — no clearing or
replacement of session state happens after the last wakeup, whatever
the invocation outcome. -/
theorem last_breath_preserves_session (cfg : Config) (fs : FS)
    (st : SolState) (now : Now) (fresh : Nat) (out : Outcome)
    (log : List LogEntry) (s : Nat) (h : st.session_id = some s) :
    (last_breath cfg fs st now fresh out log).state = st := by
  rw [last_breath_state, if_neg (by simp [h])]

/-- Witness for C8: a last wakeup with session 3 of night 0 in place
(and a spawn error) leaves the state untouched. -/
theorem last_breath_preserves_session_witness :
    (last_breath ⟨22, 5, 20⟩ ⟨none, none⟩ ⟨some 3, some 0⟩ ⟨1, 5, 0⟩ 9
        Outcome.spawnError []).state = ⟨some 3, some 0⟩ :=
  last_breath_preserves_session ⟨22, 5, 20⟩ ⟨none, none⟩ ⟨some 3, some 0⟩
    ⟨1, 5, 0⟩ 9 Outcome.spawnError [] 3 rfl

/-- Claim C10: when `build_prompt` is called with both is_first and
is_last true (the degenerate single-instant-night case), the is_last
branch wins: the result equals the is_first = false call and is the
last-breath prompt variant. -/
theorem build_prompt_last_precedence (cfg : Config) (fs : FS) (now : Now) :
    build_prompt cfg fs now true true = build_prompt cfg fs now false true
      ∧ build_prompt cfg fs now true true
          = (match fs.last_breath_file with
             | some t => "It's " ++ timeString now ++ ".\n\n" ++ t
             | none =>
                 "It's " ++ timeString now ++ ". The night ends. Rest well.") :=
  ⟨rfl, rfl⟩
